/-
A verification development for the roundabout driving simulation.

The simulation source is a JavaScript game class.  Its core numeric state
(vehicle pose, accumulated ring angle, grace timers, mission index) is
embedded here shallowly: JavaScript numbers become real numbers, the
mutable `car` / engine records become explicit state structures, and each
per-tick mutation becomes a pure state-transition function.  Rendering,
audio, camera and input plumbing are outside the embedded core; the NPC
kinematics of `_updateNPCs` is not re-derived - the post-move NPC poses
enter the top-level tick as an explicit argument - but the NPC follow/yield
speed model `_npcFollowSpeed` is embedded in full.
-/
import Mathlib

open scoped Classical

set_option maxHeartbeats 1000000

noncomputable section

/-! ## Basic enumerated types (string tags in the source) -/

/-- Player phase tags: 'approaching' | 'on_roundabout' | 'exiting' | 'completed'.
The failed condition is a separate boolean flag in the source, not a phase. -/
inductive Phase where
  | approaching
  | on_roundabout
  | exiting
  | completed
deriving DecidableEq

/-- NPC state tags: 'despawned' | 'approaching' | 'entering_ring' |
'on_roundabout' | 'leaving_ring' | 'exiting' (plus a 'debug' tag used only
by the indicator debug screen). -/
inductive NpcState where
  | despawned
  | approaching
  | entering_ring
  | on_roundabout
  | leaving_ring
  | exiting
  | debug
deriving DecidableEq

/-- The four arms of the roundabout. -/
inductive ArmName where
  | south
  | north
  | east
  | west
deriving DecidableEq

/-- Detected lane tags: 'outer' | 'inner'. -/
inductive Lane where
  | outer
  | inner
deriving DecidableEq

/-- Required approach lane per mission: 'outer' | 'either' | 'inner'. -/
inductive ReqLane where
  | outer
  | either
  | inner
deriving DecidableEq

/-- Required ring lane per mission: 'outer' | 'match' | 'inner'
('match' is named matchLane here because match is a Lean keyword). -/
inductive RingLaneReq where
  | outer
  | matchLane
  | inner
deriving DecidableEq

/-- Grace-period requirement tags fed to condOk:
'left' | 'right' | 'none' | 'approach_outer' | 'approach_inner' |
'ring_outer' | 'ring_inner' | 'signal'. -/
inductive GraceReq where
  | left
  | right
  | none
  | approach_outer
  | approach_inner
  | ring_outer
  | ring_inner
  | signal
deriving DecidableEq

/-- Failure reason codes.  The source stores human-readable strings; each
constructor stands for one of them:
island  = 'You drove into the centre island. ...'   (off-road, centre)
grass   = 'Thats grass, not asphalt. ...'           (off-road, outside)
collision = 'You crashed into the traffic. ...'
noSignal = 'No signal? Other drivers cant read your mind.'
wrongLane = 'You didnt move into the correct lane in time.' -/
inductive FailReason where
  | island
  | grass
  | collision
  | noSignal
  | wrongLane
deriving DecidableEq

/-- An off-road failure reason (either of the two off-road messages). -/
def FailReason.isOffRoad (r : FailReason) : Prop :=
  r = FailReason.island ∨ r = FailReason.grass

/-! ## Geometry and physics constants (module-level consts in the source) -/

def LANE_W : ℝ := 3.5
def ROAD_W : ℝ := 14
def RB_IN : ℝ := 12
def RB_MID : ℝ := 17
def RB_OUT : ℝ := 22
def ROAD_L : ℝ := 110

def SOUTH_ENTRY_ANGLE : ℝ := 3 * Real.pi / 2

def NPC_SPEED : ℝ := 0.22
def NPC_INNER_R : ℝ := (RB_IN + RB_MID) / 2
def NPC_OUTER_R : ℝ := (RB_MID + RB_OUT) / 2
def ENTRY_ADVANCE : ℝ := 0.4
def EXIT_ADVANCE : ℝ := 0.4

def MAX_SPEED : ℝ := 0.55
def MAX_REV : ℝ := 0.18
def ACCEL : ℝ := 0.009
def BRAKE : ℝ := 0.018
def FRICTION : ℝ := 0.965
def MAX_STEER : ℝ := 0.062

/-- Arm overlap tolerance used by the off-road check (`const ARM_OVERLAP = 1.5`). -/
def ARM_OVERLAP : ℝ := 1.5

/-! ## JavaScript numeric helpers

`%` in JavaScript is the truncated remainder: `a % b = a - b * trunc (a / b)`.
`Math.atan2` returns the quadrant-correct angle in (-pi, pi]. -/

/-- Truncation toward zero, as applied by the JavaScript `%` operator. -/
def rtrunc (x : ℝ) : ℤ :=
  if 0 ≤ x then ⌊x⌋ else -⌊-x⌋

/-- JavaScript remainder `a % b`. -/
def jsMod (a b : ℝ) : ℝ := a - b * (rtrunc (a / b) : ℝ)

/-- Model of `Math.atan2 y x`: the angle of the point (x, y) in (-pi, pi]. -/
def atan2 (y x : ℝ) : ℝ :=
  if 0 < x then Real.arctan (y / x)
  else if x < 0 then
    (if 0 ≤ y then Real.arctan (y / x) + Real.pi else Real.arctan (y / x) - Real.pi)
  else if 0 < y then Real.pi / 2
  else if y < 0 then -(Real.pi / 2)
  else 0

/-- The source's normalisation idiom `((raw % TWO_PI) + TWO_PI) % TWO_PI`,
mapping any angle into [0, 2*pi). -/
def norm2pi (x : ℝ) : ℝ :=
  jsMod (jsMod x (2 * Real.pi) + 2 * Real.pi) (2 * Real.pi)

/-- The per-tick ring-angle delta with wrap correction:
`let d = norm - prev; if (d < -PI) d += TWO_PI; if (d > PI) d -= TWO_PI`. -/
def wrapDelta (norm prev : ℝ) : ℝ :=
  let d0 := norm - prev
  let d1 := if d0 < -Real.pi then d0 + 2 * Real.pi else d0
  if Real.pi < d1 then d1 - 2 * Real.pi else d1

/-- Clockwise accumulation `car.traveledAngle -= d` (the raw atan2 delta is
negated because clockwise travel decreases the raw angle). -/
def accumulate (traveled norm prev : ℝ) : ℝ :=
  traveled - wrapDelta norm prev

/-! ### Lemmas about the JavaScript remainder and angle normalisation -/

theorem rtrunc_of_nonneg {x : ℝ} (h : 0 ≤ x) : rtrunc x = ⌊x⌋ := if_pos h

theorem jsMod_eq_fract {a b : ℝ} (hb : 0 < b) (ha : 0 ≤ a) :
    jsMod a b = b * Int.fract (a / b) := by
  unfold jsMod
  rw [rtrunc_of_nonneg (div_nonneg ha hb.le), Int.fract, mul_sub,
    mul_div_cancel₀ a hb.ne']

theorem jsMod_nonneg {a b : ℝ} (hb : 0 < b) (ha : 0 ≤ a) : 0 ≤ jsMod a b := by
  rw [jsMod_eq_fract hb ha]
  exact mul_nonneg hb.le (Int.fract_nonneg _)

theorem jsMod_lt {a b : ℝ} (hb : 0 < b) (ha : 0 ≤ a) : jsMod a b < b := by
  rw [jsMod_eq_fract hb ha]
  calc b * Int.fract (a / b) < b * 1 :=
        (mul_lt_mul_left hb).mpr (Int.fract_lt_one _)
    _ = b := mul_one b

theorem jsMod_neg_eq {a b : ℝ} (hb : 0 < b) (ha : a < 0) :
    jsMod a b = -(jsMod (-a) b) := by
  have hd : ¬ 0 ≤ a / b := not_le.mpr (div_neg_of_neg_of_pos ha hb)
  unfold jsMod rtrunc
  rw [if_neg hd, if_pos (div_nonneg (by linarith : (0:ℝ) ≤ -a) hb.le), neg_div]
  push_cast
  ring

theorem jsMod_self {b : ℝ} (hb : b ≠ 0) : jsMod b b = 0 := by
  unfold jsMod
  rw [div_self hb, rtrunc_of_nonneg (by norm_num), Int.floor_one]
  push_cast
  ring

/-- The remainder `jsMod` differs from its first argument by an integer multiple of `b`. -/
theorem jsMod_sub_int (a b : ℝ) : ∃ k : ℤ, jsMod a b = a + b * (k : ℝ) := by
  exact ⟨-(rtrunc (a / b)), by unfold jsMod; push_cast; ring⟩

theorem two_pi_pos : (0:ℝ) < 2 * Real.pi := by positivity

theorem norm2pi_nonneg (x : ℝ) : 0 ≤ norm2pi x := by
  unfold norm2pi
  apply jsMod_nonneg two_pi_pos
  rcases le_or_lt 0 x with hx | hx
  · have := jsMod_nonneg two_pi_pos hx
    linarith [two_pi_pos]
  · rw [jsMod_neg_eq two_pi_pos hx]
    have := jsMod_lt two_pi_pos (le_of_lt (neg_pos.mpr hx))
    linarith

theorem norm2pi_lt (x : ℝ) : norm2pi x < 2 * Real.pi := by
  unfold norm2pi
  apply jsMod_lt two_pi_pos
  rcases le_or_lt 0 x with hx | hx
  · have := jsMod_nonneg two_pi_pos hx
    linarith [two_pi_pos]
  · rw [jsMod_neg_eq two_pi_pos hx]
    have := jsMod_lt two_pi_pos (le_of_lt (neg_pos.mpr hx))
    linarith

/-- Angle normalisation shifts the input by an integer number of full turns. -/
theorem norm2pi_sub_int (x : ℝ) :
    ∃ k : ℤ, norm2pi x = x + 2 * Real.pi * (k : ℝ) := by
  obtain ⟨k1, h1⟩ := jsMod_sub_int x (2 * Real.pi)
  obtain ⟨k2, h2⟩ := jsMod_sub_int (jsMod x (2 * Real.pi) + 2 * Real.pi) (2 * Real.pi)
  refine ⟨k1 + 1 + k2, ?_⟩
  unfold norm2pi
  rw [h2, h1]
  push_cast
  ring

theorem wrapDelta_self (a : ℝ) : wrapDelta a a = 0 := by
  have hpi := Real.pi_pos
  simp only [wrapDelta, sub_self]
  rw [if_neg (show ¬ ((0:ℝ) < -Real.pi) by linarith)]
  rw [if_neg (show ¬ (Real.pi < (0:ℝ)) by linarith)]

/-- One clockwise step of size w (0 < w < pi) between normalised angles is
measured by `wrapDelta` as exactly -w, regardless of wrap-around. -/
theorem wrapDelta_norm2pi_step (x w : ℝ) (h0 : 0 < w) (h1 : w < Real.pi) :
    wrapDelta (norm2pi (x - w)) (norm2pi x) = -w := by
  have hpi := Real.pi_pos
  obtain ⟨k1, hk1⟩ := norm2pi_sub_int (x - w)
  obtain ⟨k2, hk2⟩ := norm2pi_sub_int x
  have hv0 := norm2pi_nonneg (x - w)
  have hv1 := norm2pi_lt (x - w)
  have hu0 := norm2pi_nonneg x
  have hu1 := norm2pi_lt x
  set v := norm2pi (x - w) with hv
  set u := norm2pi x with hu
  have hdiff : v - u = -w + 2 * Real.pi * ((k1 - k2 : ℤ) : ℝ) := by
    rw [hk1, hk2]
    push_cast
    ring
  set m : ℤ := k1 - k2 with hm
  have hmr : v - u = -w + 2 * Real.pi * (m : ℝ) := hdiff
  have hm0 : (0:ℤ) ≤ m := by
    by_contra hneg
    push_neg at hneg
    have : (m : ℝ) ≤ -1 := by exact_mod_cast Int.le_sub_one_of_lt hneg
    nlinarith
  have hm1 : m ≤ 1 := by
    by_contra hgt
    push_neg at hgt
    have : (2:ℝ) ≤ (m : ℝ) := by exact_mod_cast hgt
    nlinarith
  interval_cases m
  · -- no wrap: delta is already -w in (-pi, 0)
    have hd : v - u = -w := by rw [hmr]; push_cast; ring
    simp only [wrapDelta, hd]
    rw [if_neg (show ¬ (-w < -Real.pi) by linarith)]
    rw [if_neg (show ¬ (Real.pi < -w) by linarith)]
  · -- wrapped: delta is 2*pi - w in (pi, 2*pi), corrected by -2*pi
    have hd : v - u = -w + 2 * Real.pi := by rw [hmr]; push_cast; ring
    simp only [wrapDelta, hd]
    rw [if_neg (show ¬ (-w + 2 * Real.pi < -Real.pi) by linarith)]
    rw [if_pos (show Real.pi < -w + 2 * Real.pi by linarith)]
    ring

/-- Accumulated traveled angle of a vehicle that moves clockwise at the
constant angular speed w per tick, read through the source's
normalise-then-accumulate pipeline, after n ticks from raw angle x0. -/
def cwTraveled (x0 w : ℝ) : ℕ → ℝ
  | 0 => 0
  | n + 1 =>
      accumulate (cwTraveled x0 w n)
        (norm2pi (x0 - (n + 1 : ℕ) * w)) (norm2pi (x0 - (n : ℕ) * w))

theorem cwTraveled_eq (x0 w : ℝ) (h0 : 0 < w) (h1 : w < Real.pi) :
    ∀ n : ℕ, cwTraveled x0 w n = n * w := by
  intro n
  induction n with
  | zero => simp [cwTraveled]
  | succ n ih =>
      have harg : x0 - ((n + 1 : ℕ) : ℝ) * w = (x0 - (n : ℕ) * w) - w := by
        push_cast
        ring
      unfold cwTraveled accumulate
      rw [ih, harg, wrapDelta_norm2pi_step _ w h0 h1]
      push_cast
      ring

/-! ## Data model: player car, NPC agents, engine state -/

/-- Player vehicle record (the `this.car` object literal of the game class).
`x`/`z` are the ground-plane coordinates of `car.pos`. -/
structure Car where
  x : ℝ
  z : ℝ
  heading : ℝ
  speed : ℝ
  steer : ℝ
  yawRate : ℝ
  phase : Phase
  targetExit : Option ArmName
  targetExitNum : ℕ
  exitTravelTarget : ℝ
  requiredLane : ReqLane
  requiredRingLane : RingLaneReq
  leftIndicator : Bool
  rightIndicator : Bool
  entryAngle : ℝ
  traveledAngle : ℝ
  approachLane : Lane
  ringLane : Lane
  graceActive : Bool
  graceTimer : ℝ
  graceRequired : Option GraceReq
  failed : Bool
  failReason : Option FailReason

/-- The NPC fields read by the follow/yield speed model and the collision
check (`npc.mesh.position` becomes `x`/`z`). -/
structure Npc where
  state : NpcState
  x : ℝ
  z : ℝ
  heading : ℝ
  ringAngle : ℝ
  ringRadius : ℝ
  entryArm : ArmName

/-- Engine-level mutable state touched by the embedded core: the player car,
the NPC pool, the rule-engine trackers (`this._prevRingAngle`,
`this._prevDistFromCenter`, the one-shot check flags), the mission index
and the completion countdown. -/
structure Engine where
  car : Car
  npcs : List Npc
  prevRingAngle : Option ℝ
  prevDistFromCenter : Option ℝ
  checkADone : Bool
  checkBDone : Bool
  checkCDone : Bool
  checkDDone : Bool
  checkLaneApproachDone : Bool
  missionIndex : ℕ
  completeTimer : ℝ

/-- Discrete control input flags polled from the keys-held set
(ArrowLeft / ArrowRight / ArrowUp / ArrowDown). -/
structure Keys where
  left : Bool
  right : Bool
  up : Bool
  down : Bool

/-! ## Missions (the EXITS table and ENTRY_IND map) -/

/-- One entry of the fixed EXITS list. -/
structure ExitSpec where
  name : ArmName
  num : ℕ
  travelAngle : ℝ
  requiredLane : ReqLane
  requiredRingLane : RingLaneReq

/-- The table `const EXITS = [...]`: 1st exit west (quarter turn), 2nd exit north
(straight, half turn), 3rd exit east (three-quarter turn). -/
def EXITS : List ExitSpec :=
  [ ⟨ArmName.west, 1, Real.pi / 2, ReqLane.outer, RingLaneReq.outer⟩,
    ⟨ArmName.north, 2, Real.pi, ReqLane.either, RingLaneReq.matchLane⟩,
    ⟨ArmName.east, 3, 3 * Real.pi / 2, ReqLane.inner, RingLaneReq.inner⟩ ]

/-- The lookup `EXITS[this._missionIndex % EXITS.length]` (the index is always in
range, so the default value is never consulted). -/
def missionAt (i : ℕ) : ExitSpec :=
  EXITS.getD (i % EXITS.length)
    ⟨ArmName.west, 1, Real.pi / 2, ReqLane.outer, RingLaneReq.outer⟩

/-- The map `const ENTRY_IND = { 1: 'left', 2: 'none', 3: 'right' }`.  Lookup of any
other key yields no requirement (JavaScript undefined), which condOk treats
as satisfied. -/
def ENTRY_IND : ℕ → Option GraceReq
  | 1 => some GraceReq.left
  | 2 => some GraceReq.none
  | 3 => some GraceReq.right
  | _ => Option.none

/-- Model of `_assignMission()`: load the cyclically selected exit into the car's
mission fields and clear all one-shot check flags. -/
def assignMission (e : Engine) : Engine :=
  let ex := missionAt e.missionIndex
  { e with
    car := { e.car with
      targetExit := some ex.name
      targetExitNum := ex.num
      exitTravelTarget := ex.travelAngle
      requiredLane := ex.requiredLane
      requiredRingLane := ex.requiredRingLane }
    checkADone := false
    checkBDone := false
    checkCDone := false
    checkDDone := false
    checkLaneApproachDone := false }

/-- Model of `restart()`: full reset of the player car, ring trackers and the
completion countdown, then `_assignMission()`.  `this._missionIndex` is
untouched. -/
def restart (e : Engine) : Engine :=
  assignMission
    { e with
      car := { e.car with
        x := -(LANE_W * 1.5)
        z := RB_OUT + ROAD_L * 0.55
        heading := 0
        speed := 0
        steer := 0
        yawRate := 0
        phase := Phase.approaching
        leftIndicator := false
        rightIndicator := false
        entryAngle := SOUTH_ENTRY_ANGLE
        traveledAngle := 0
        approachLane := Lane.outer
        ringLane := Lane.outer
        graceActive := false
        graceTimer := 0
        graceRequired := Option.none
        failed := false
        failReason := Option.none }
      prevRingAngle := Option.none
      prevDistFromCenter := Option.none
      completeTimer := 0 }

/-- Model of `nextMission()`: advance the mission index, then restart. -/
def nextMission (e : Engine) : Engine :=
  restart { e with missionIndex := e.missionIndex + 1 }

/-! ## Rule-engine primitives -/

/-- Distance of the car from the ring centre
(`Math.sqrt(car.pos.x ** 2 + car.pos.z ** 2)`). -/
def distOf (car : Car) : ℝ :=
  Real.sqrt (car.x * car.x + car.z * car.z)

/-- The drivable-surface test of `_updateStateMachine`: the ring annulus or
one of the four arm rectangles, each arm extended inward by ARM_OVERLAP to
bridge the arm/ring seam. -/
def onRoad (car : Car) : Prop :=
  let dist := distOf car
  (RB_IN < dist ∧ dist < RB_OUT) ∨
  (|car.x| < ROAD_W / 2 ∧ RB_OUT - ARM_OVERLAP < car.z ∧ car.z < RB_OUT + ROAD_L) ∨
  (|car.x| < ROAD_W / 2 ∧ car.z < -RB_OUT + ARM_OVERLAP ∧ -(RB_OUT + ROAD_L) < car.z) ∨
  (|car.z| < ROAD_W / 2 ∧ RB_OUT - ARM_OVERLAP < car.x ∧ car.x < RB_OUT + ROAD_L) ∨
  (|car.z| < ROAD_W / 2 ∧ car.x < -RB_OUT + ARM_OVERLAP ∧ -(RB_OUT + ROAD_L) < car.x)

/-- The collision loop: failure when any active NPC is closer than 3.5. -/
def hasCollision (car : Car) (npcs : List Npc) : Prop :=
  ∃ npc ∈ npcs, npc.state ≠ NpcState.despawned ∧
    (car.x - npc.x) * (car.x - npc.x) + (car.z - npc.z) * (car.z - npc.z) < 3.5 * 3.5

/-- Model of `condOk(req)`: the universal condition checker over indicator and lane
requirements.  `dist` is the distance from centre captured at the top of
the state-machine tick. -/
def condOk (car : Car) (dist : ℝ) : GraceReq → Prop
  | GraceReq.left => car.leftIndicator = true
  | GraceReq.right => car.rightIndicator = true
  | GraceReq.none => car.leftIndicator = false ∧ car.rightIndicator = false
  | GraceReq.approach_outer => car.x < -LANE_W
  | GraceReq.approach_inner => -LANE_W ≤ car.x ∧ car.x < 0
  | GraceReq.ring_outer => RB_MID < dist
  | GraceReq.ring_inner => dist < RB_MID
  | GraceReq.signal => car.leftIndicator = true ∨ car.rightIndicator = true

/-- Lift of `condOk` to an optional requirement; a missing requirement (JavaScript
undefined falls through every case) counts as satisfied. -/
def condOkOpt (car : Car) (dist : ℝ) : Option GraceReq → Prop
  | some r => condOk car dist r
  | Option.none => True

/-- Is the pending requirement one of the indicator kinds
(`['left','right','none'].includes(...)`)? -/
def isIndReq : Option GraceReq → Prop
  | some GraceReq.left => True
  | some GraceReq.right => True
  | some GraceReq.none => True
  | _ => False

/-- Model of `startGrace(req, duration)`: open a grace period only if none is
already active. -/
def startGrace (car : Car) (req : GraceReq) (duration : ℝ) : Car :=
  if car.graceActive = true then car
  else { car with graceActive := true, graceTimer := duration, graceRequired := some req }

/-- The grace-period countdown block at the top of `_updateStateMachine`:
decrement the timer; clear the grace if the required condition holds; fail
if the timer has run out. -/
def graceStep (dt dist : ℝ) (car : Car) : Car :=
  if car.graceActive = true then
    let t := car.graceTimer - dt
    if condOkOpt car dist car.graceRequired then
      { car with graceTimer := t, graceActive := false }
    else if t ≤ 0 then
      { car with
        graceTimer := t
        graceActive := false
        failed := true
        failReason := some (if isIndReq car.graceRequired
          then FailReason.noSignal else FailReason.wrongLane) }
    else
      { car with graceTimer := t }
  else car

/-! ## NPC geometry and the follow/yield speed model -/

/-- Result of `_ringIntersect`: intersection point, normalised ring angle
(`theta = atan2(x, -z)` convention) and tangent heading for clockwise travel. -/
structure RingInt where
  x : ℝ
  z : ℝ
  ringAngle : ℝ
  tangentH : ℝ

/-- Model of `_ringIntersect(arm, r, outer, isEntry)`: where the NPC lane centred
`w` off the road centre meets the ring of radius `r`. -/
def ringIntersect (arm : ArmName) (r : ℝ) (outer : Prop) (isEntry : Bool) : RingInt :=
  let w := if outer then LANE_W * 1.5 else LANE_W * 0.5
  let h := Real.sqrt (r * r - w * w)
  let p : ℝ × ℝ :=
    match arm with
    | ArmName.south => (if isEntry then -w else w, h)
    | ArmName.north => (if isEntry then w else -w, -h)
    | ArmName.east => (h, if isEntry then w else -w)
    | ArmName.west => (-h, if isEntry then -w else w)
  let rawAngle := atan2 p.1 (-p.2)
  let ringAngle := norm2pi rawAngle
  let tangentH := atan2 (Real.cos ringAngle) (-Real.sin ringAngle)
  ⟨p.1, p.2, ringAngle, tangentH⟩

/-- The approaching NPC's lane-specific ring entry intersection
(`this._ringIntersect(npc.entryArm, npc.ringRadius, isOuter, true)` with
`isOuter = (npc.ringRadius === NPC_OUTER_R)`). -/
def entryIntOf (npc : Npc) : RingInt :=
  ringIntersect npc.entryArm npc.ringRadius (npc.ringRadius = NPC_OUTER_R) true

/-- Angular gap `(entryAngle - playerAngle + TWO_PI) % TWO_PI` between the
NPC's ring-entry angle and the player's current ring position
(`playerAngle = atan2(px, -pz)` normalised). -/
def yieldGapPlayer (npc : Npc) (car : Car) : ℝ :=
  jsMod ((entryIntOf npc).ringAngle - norm2pi (atan2 car.x (-car.z)) + 2 * Real.pi)
    (2 * Real.pi)

/-- Angular gap between the NPC's ring-entry angle and another agent's ring
position (`otherAngle = atan2(ox, -oz)` normalised). -/
def yieldGapNpc (npc other : Npc) : ℝ :=
  jsMod ((entryIntOf npc).ringAngle - norm2pi (atan2 other.x (-other.z)) + 2 * Real.pi)
    (2 * Real.pi)

/-- The roundabout entry-yield test at the top of `_npcFollowSpeed`: an
approaching NPC inside the entry zone returns speed 0 when the non-failed
on-ring player sits within 0.9 rad clockwise-before its entry angle, when
any other on-ring agent sits within that same gap, or when any other agent
in a transition state occupies the 10-unit entry zone.  `others` is the NPC
pool without the subject itself (the `other === npc` identity skip). -/
def npcYieldCond (car : Car) (others : List Npc) (npc : Npc) : Prop :=
  npc.state = NpcState.approaching ∧
  Real.sqrt (npc.x * npc.x + npc.z * npc.z) < RB_OUT + 14 ∧
  ((car.failed = false ∧ car.phase = Phase.on_roundabout ∧
      yieldGapPlayer npc car < 0.9) ∨
   (∃ other ∈ others,
      other.state ≠ NpcState.despawned ∧ other.state ≠ NpcState.approaching ∧
      (if other.state = NpcState.on_roundabout then
        yieldGapNpc npc other < 0.9
      else
        (other.x - (entryIntOf npc).x) * (other.x - (entryIntOf npc).x) +
          (other.z - (entryIntOf npc).z) * (other.z - (entryIntOf npc).z) < 10 * 10)))

/-- Model of `_npcFollowSpeed(npc)`: entry-yield first (speed 0), then the forward
obstacle scan — project every active vehicle onto the NPC's forward axis
and ramp the speed from NPC_SPEED at LOOK_AHEAD = 12 down to 0 at
STOP_DIST = 4, with lateral tolerance LANE_HALF = 2.2.  A failed player is
not an obstacle and is never yielded to. -/
def npcFollowSpeed (car : Car) (others : List Npc) (npc : Npc) : ℝ :=
  if npcYieldCond car others npc then 0
  else
    let dirX := if npc.state = NpcState.on_roundabout
      then Real.cos npc.ringAngle else Real.sin npc.heading
    let dirZ := if npc.state = NpcState.on_roundabout
      then Real.sin npc.ringAngle else -Real.cos npc.heading
    let obstacles : List (ℝ × ℝ) :=
      (if car.failed = true then [] else [(car.x, car.z)]) ++
        others.filterMap (fun o =>
          if o.state = NpcState.despawned then Option.none else some (o.x, o.z))
    let fwds := obstacles.filterMap (fun p =>
      let dx := p.1 - npc.x
      let dz := p.2 - npc.z
      let fwd := dx * dirX + dz * dirZ
      let lat := |dx * dirZ - dz * dirX|
      if 0 < fwd ∧ fwd < 12 ∧ lat < 2.2 then some fwd else Option.none)
    let closestFwd : Option ℝ :=
      fwds.foldl (fun acc f =>
        match acc with
        | Option.none => some f
        | some m => some (min m f)) Option.none
    match closestFwd with
    | Option.none => NPC_SPEED
    | some m => if m ≤ 4 then 0 else NPC_SPEED * (m - 4) / (12 - 4)

/-! ## Rule-engine phase steps -/

/-- A car together with the updated value of a one-shot check flag. -/
structure CarFlag where
  car : Car
  done : Bool

/-- Check (b), 12 oclock: once `traveledAngle >= PI - 0.1`, the 3rd-exit
mission must still show the right indicator. -/
def checkBStep (dist : ℝ) (done : Bool) (car : Car) : CarFlag :=
  if done = false ∧ Real.pi - 0.1 ≤ car.traveledAngle then
    ⟨if car.targetExitNum = 3 ∧ ¬ condOk car dist GraceReq.right
      then startGrace car GraceReq.right 3.0 else car, true⟩
  else ⟨car, done⟩

/-- Check (d): for the straight (2nd) exit, the left indicator is required
once `traveledAngle >= PI / 2` (after passing the first exit). -/
def checkDStep (dist : ℝ) (done : Bool) (car : Car) : CarFlag :=
  if done = false ∧ car.targetExitNum = 2 ∧ Real.pi / 2 ≤ car.traveledAngle then
    ⟨if ¬ condOk car dist GraceReq.left
      then startGrace car GraceReq.left 3.0 else car, true⟩
  else ⟨car, done⟩

/-- Check (c), near exit: every mission needs the left indicator once
`traveledAngle >= exitTravelTarget - 0.7`. -/
def checkCStep (dist : ℝ) (done : Bool) (car : Car) : CarFlag :=
  if done = false ∧ car.exitTravelTarget - 0.7 ≤ car.traveledAngle then
    ⟨if ¬ condOk car dist GraceReq.left
      then startGrace car GraceReq.left 3.0 else car, true⟩
  else ⟨car, done⟩

/-- The continuous ring-lane discipline check: exit 1 always outer; exit 2
matches the approach lane; exit 3 inner until near the exit. -/
def ringLaneCheck (dist : ℝ) (car : Car) : Car :=
  let needOuterRing : Prop :=
    if car.targetExitNum = 1 then True
    else if car.targetExitNum = 2 then car.approachLane = Lane.outer
    else car.exitTravelTarget - 0.7 ≤ car.traveledAngle
  if ¬ (needOuterRing ↔ RB_MID < dist) then
    startGrace car (if needOuterRing then GraceReq.ring_outer else GraceReq.ring_inner) 3.0
  else car

/-- The unsignalled-lane-change check: radial displacement above 0.5 in one
tick without any indicator opens a 2-second signal grace. -/
def laneChangeCheck (dist : ℝ) (prevDist : Option ℝ) (car : Car) : Car :=
  match prevDist with
  | some p =>
      if 0.5 < |dist - p| ∧ car.leftIndicator = false ∧ car.rightIndicator = false
      then startGrace car GraceReq.signal 2.0 else car
  | Option.none => car

/-- Has the car physically crossed RB_OUT onto the correct exit arm
(west / north / east - the player always enters from the south)? -/
def onExitArm (car : Car) : Prop :=
  (car.targetExit = some ArmName.west ∧ car.x < -RB_OUT ∧ |car.z| < ROAD_W / 2) ∨
  (car.targetExit = some ArmName.north ∧ car.z < -RB_OUT ∧ |car.x| < ROAD_W / 2) ∨
  (car.targetExit = some ArmName.east ∧ RB_OUT < car.x ∧ |car.z| < ROAD_W / 2)

/-- The 'approaching' phase branch: track the approach lane, run the
one-shot approach-lane discipline check within 20 units of the give-way
line, and at the ring boundary run the one-shot entry-indicator check (a)
and transition to on_roundabout, initialising the ring-angle tracker. -/
def approachingStep (dist : ℝ) (e : Engine) (car : Car) : Engine :=
  let car2 := { car with approachLane := if car.x < -LANE_W then Lane.outer else Lane.inner }
  let la : CarFlag :=
    if e.checkLaneApproachDone = false ∧ dist < RB_OUT + 20 then
      let inOuter : Prop := car2.x < -LANE_W
      let c1 := if car2.targetExitNum = 1 ∧ ¬ inOuter
        then startGrace car2 GraceReq.approach_outer 4.0 else car2
      let c2 := if c1.targetExitNum = 3 ∧ inOuter
        then startGrace c1 GraceReq.approach_inner 4.0 else c1
      ⟨c2, true⟩
    else ⟨car2, e.checkLaneApproachDone⟩
  if dist ≤ RB_OUT + 1 then
    let af : CarFlag :=
      if e.checkADone = false then
        ⟨if ¬ condOkOpt la.car dist (ENTRY_IND la.car.targetExitNum)
          then startGrace la.car ((ENTRY_IND la.car.targetExitNum).getD GraceReq.left) 3.0
          else la.car, true⟩
      else ⟨la.car, e.checkADone⟩
    let car5 := { af.car with phase := Phase.on_roundabout, traveledAngle := 0 }
    let raw := atan2 (-car5.z) car5.x
    { e with
      car := car5
      prevRingAngle := some (norm2pi raw)
      prevDistFromCenter := some dist
      checkADone := af.done
      checkLaneApproachDone := la.done }
  else
    { e with car := la.car, checkLaneApproachDone := la.done }

/-- The 'on_roundabout' phase branch: classify the ring lane, accumulate
the clockwise traveled angle, run the one-shot checks (b), (d), (c), the
continuous ring-lane and lane-change checks, clear pending graces once
physically on the correct exit arm, and transition to 'exiting' when the
required travel (minus 0.15) is reached or the exit arm is reached. -/
def ringStep (e : Engine) (car : Car) : Engine :=
  let dist := distOf car
  let car2 := { car with ringLane := if dist < RB_MID then Lane.inner else Lane.outer }
  let norm := norm2pi (atan2 (-car2.z) car2.x)
  let car3 :=
    match e.prevRingAngle with
    | some prev => { car2 with traveledAngle := accumulate car2.traveledAngle norm prev }
    | Option.none => car2
  let b := checkBStep dist e.checkBDone car3
  let d := checkDStep dist e.checkDDone b.car
  let c := checkCStep dist e.checkCDone d.car
  let car7 := ringLaneCheck dist c.car
  let car8 := laneChangeCheck dist e.prevDistFromCenter car7
  let car9 := if onExitArm car8 then { car8 with graceActive := false } else car8
  let car10 := if car9.exitTravelTarget - 0.15 ≤ car9.traveledAngle ∨ onExitArm car9
    then { car9 with phase := Phase.exiting } else car9
  { e with
    car := car10
    prevRingAngle := some norm
    prevDistFromCenter := some dist
    checkBDone := b.done
    checkDDone := d.done
    checkCDone := c.done }

/-- The 'exiting' phase branch: completed once 8 units past the ring. -/
def exitingStep (dist : ℝ) (e : Engine) (car : Car) : Engine :=
  if RB_OUT + 8 ≤ dist then
    { e with car := { car with phase := Phase.completed }, completeTimer := 2.0 }
  else
    { e with car := car }

/-- Model of `_updateStateMachine(dt)`: the per-tick rule engine.  Nothing runs once
the car has failed or completed; then the off-road and collision checks,
the grace countdown, and the phase-specific logic, in source order. -/
def updateStateMachine (dt : ℝ) (e : Engine) : Engine :=
  let car := e.car
  if car.failed = true ∨ car.phase = Phase.completed then e
  else
    let dist := distOf car
    if ¬ onRoad car then
      { e with car := { car with
          failed := true
          failReason := some (if dist < RB_IN then FailReason.island else FailReason.grass) } }
    else if hasCollision car e.npcs then
      { e with car := { car with failed := true, failReason := some FailReason.collision } }
    else
      let gcar := graceStep dt dist car
      if gcar.failed = true then { e with car := gcar }
      else if gcar.phase = Phase.approaching then approachingStep dist e gcar
      else if gcar.phase = Phase.on_roundabout then ringStep e gcar
      else if gcar.phase = Phase.exiting then exitingStep dist e gcar
      else e

/-! ## Player physics and the top-level tick -/

/-- The player physics block of `_update()`: steering ramp/decay, speed
from throttle/brake/friction with clamping to [-MAX_REV, MAX_SPEED] and a
snap-to-zero below 0.0005, smoothed yaw rate, heading integration and
position integration, all scaled by dtScale. -/
def physicsStep (k : Keys) (dtScale : ℝ) (car : Car) : Car :=
  let steer :=
    if k.left = true then max (car.steer - 0.13 * dtScale) (-1)
    else if k.right = true then min (car.steer + 0.13 * dtScale) 1
    else car.steer * (0.88 : ℝ) ^ dtScale
  let speed0 :=
    if k.up = true then car.speed + ACCEL * dtScale
    else if k.down = true then
      (if 0.01 < car.speed then car.speed - BRAKE * dtScale
       else car.speed - ACCEL * 0.5 * dtScale)
    else car.speed * FRICTION ^ dtScale
  let speed1 := max (-MAX_REV) (min MAX_SPEED speed0)
  let speed := if |speed1| < 0.0005 then 0 else speed1
  let spd := |speed|
  let sFactor := min (spd / MAX_SPEED * 2 + 0.3) 1 * (1 - spd / MAX_SPEED * 0.2)
  let targetYaw := MAX_STEER * steer * sFactor * (if 0 ≤ speed then 1 else -1)
  let yawRate := car.yawRate + (targetYaw - car.yawRate) * min (0.2 * dtScale) 1
  let heading := car.heading + yawRate * dtScale
  { car with
    steer := steer
    speed := speed
    yawRate := yawRate
    heading := heading
    x := car.x + Real.sin heading * speed * dtScale
    z := car.z + -(Real.cos heading) * speed * dtScale }

/-- Model of `const dt = Math.min(this.clock.getDelta(), 0.1)`: the tick duration is
the real inter-frame gap capped at 0.1 seconds. -/
def tickDt (raw : ℝ) : ℝ := min raw 0.1

/-- The complete-mission countdown at the end of `_update()`: decrement by
dt; on expiry advance the mission index and restart. -/
def completionStep (dt : ℝ) (e : Engine) : Engine :=
  if 0 < e.completeTimer then
    let t := e.completeTimer - dt
    if t ≤ 0 then restart { e with completeTimer := 0, missionIndex := e.missionIndex + 1 }
    else { e with completeTimer := t }
  else e

/-- One active-gameplay pass of `_update()` restricted to the embedded
core: clamp the tick duration, integrate the player physics (this happens
unconditionally, before any failed check), substitute the NPC poses moved
by `_updateNPCs` (passed in as `npcsAfter`), run the rule-engine state
machine with the same clamped dt, and run the completion countdown. -/
def updateTick (raw : ℝ) (k : Keys) (npcsAfter : List Npc) (e : Engine) : Engine :=
  let dt := tickDt raw
  let dtScale := dt * 60
  let e1 := { e with car := physicsStep k dtScale e.car, npcs := npcsAfter }
  completionStep dt (updateStateMachine dt e1)

/-- Initial player car (the `this.car` object literal): parked in the outer
approach lane of the south arm.  `targetExit`/`targetExitNum` start null /
unset until `_assignMission` runs. -/
def initCar : Car :=
  { x := -(LANE_W * 1.5)
    z := RB_OUT + ROAD_L * 0.55
    heading := 0
    speed := 0
    steer := 0
    yawRate := 0
    phase := Phase.approaching
    targetExit := Option.none
    targetExitNum := 0
    exitTravelTarget := 0
    requiredLane := ReqLane.outer
    requiredRingLane := RingLaneReq.outer
    leftIndicator := false
    rightIndicator := false
    entryAngle := SOUTH_ENTRY_ANGLE
    traveledAngle := 0
    approachLane := Lane.outer
    ringLane := Lane.outer
    graceActive := false
    graceTimer := 0
    graceRequired := Option.none
    failed := false
    failReason := Option.none }

/-- Initial engine state before the constructor's `_assignMission()` call. -/
def initEngine : Engine :=
  { car := initCar
    npcs := []
    prevRingAngle := Option.none
    prevDistFromCenter := Option.none
    checkADone := false
    checkBDone := false
    checkCDone := false
    checkDDone := false
    checkLaneApproachDone := false
    missionIndex := 0
    completeTimer := 0 }

/-! ## Field-preservation lemmas for the rule-engine steps -/

@[simp] theorem startGrace_failed (car : Car) (req : GraceReq) (d : ℝ) :
    (startGrace car req d).failed = car.failed := by
  unfold startGrace; split_ifs <;> rfl

@[simp] theorem startGrace_failReason (car : Car) (req : GraceReq) (d : ℝ) :
    (startGrace car req d).failReason = car.failReason := by
  unfold startGrace; split_ifs <;> rfl

@[simp] theorem startGrace_phase (car : Car) (req : GraceReq) (d : ℝ) :
    (startGrace car req d).phase = car.phase := by
  unfold startGrace; split_ifs <;> rfl

@[simp] theorem startGrace_traveledAngle (car : Car) (req : GraceReq) (d : ℝ) :
    (startGrace car req d).traveledAngle = car.traveledAngle := by
  unfold startGrace; split_ifs <;> rfl

@[simp] theorem startGrace_x (car : Car) (req : GraceReq) (d : ℝ) :
    (startGrace car req d).x = car.x := by
  unfold startGrace; split_ifs <;> rfl

@[simp] theorem startGrace_z (car : Car) (req : GraceReq) (d : ℝ) :
    (startGrace car req d).z = car.z := by
  unfold startGrace; split_ifs <;> rfl

@[simp] theorem startGrace_targetExit (car : Car) (req : GraceReq) (d : ℝ) :
    (startGrace car req d).targetExit = car.targetExit := by
  unfold startGrace; split_ifs <;> rfl

@[simp] theorem startGrace_targetExitNum (car : Car) (req : GraceReq) (d : ℝ) :
    (startGrace car req d).targetExitNum = car.targetExitNum := by
  unfold startGrace; split_ifs <;> rfl

@[simp] theorem startGrace_exitTravelTarget (car : Car) (req : GraceReq) (d : ℝ) :
    (startGrace car req d).exitTravelTarget = car.exitTravelTarget := by
  unfold startGrace; split_ifs <;> rfl

@[simp] theorem graceStep_phase (dt dist : ℝ) (car : Car) :
    (graceStep dt dist car).phase = car.phase := by
  simp only [graceStep]; split_ifs <;> rfl

@[simp] theorem graceStep_x (dt dist : ℝ) (car : Car) :
    (graceStep dt dist car).x = car.x := by
  simp only [graceStep]; split_ifs <;> rfl

@[simp] theorem graceStep_z (dt dist : ℝ) (car : Car) :
    (graceStep dt dist car).z = car.z := by
  simp only [graceStep]; split_ifs <;> rfl

@[simp] theorem graceStep_traveledAngle (dt dist : ℝ) (car : Car) :
    (graceStep dt dist car).traveledAngle = car.traveledAngle := by
  simp only [graceStep]; split_ifs <;> rfl

@[simp] theorem graceStep_targetExit (dt dist : ℝ) (car : Car) :
    (graceStep dt dist car).targetExit = car.targetExit := by
  simp only [graceStep]; split_ifs <;> rfl

@[simp] theorem graceStep_targetExitNum (dt dist : ℝ) (car : Car) :
    (graceStep dt dist car).targetExitNum = car.targetExitNum := by
  simp only [graceStep]; split_ifs <;> rfl

@[simp] theorem graceStep_exitTravelTarget (dt dist : ℝ) (car : Car) :
    (graceStep dt dist car).exitTravelTarget = car.exitTravelTarget := by
  simp only [graceStep]; split_ifs <;> rfl

theorem graceStep_of_inactive {car : Car} (dt dist : ℝ) (h : car.graceActive = false) :
    graceStep dt dist car = car := by
  unfold graceStep
  rw [if_neg (by simp [h])]

@[simp] theorem distOf_graceStep (dt dist : ℝ) (car : Car) :
    distOf (graceStep dt dist car) = distOf car := by
  unfold distOf
  rw [graceStep_x, graceStep_z]

@[simp] theorem checkBStep_car_failed (dist : ℝ) (done : Bool) (car : Car) :
    (checkBStep dist done car).car.failed = car.failed := by
  unfold checkBStep; split_ifs <;> simp

@[simp] theorem checkBStep_car_failReason (dist : ℝ) (done : Bool) (car : Car) :
    (checkBStep dist done car).car.failReason = car.failReason := by
  unfold checkBStep; split_ifs <;> simp

@[simp] theorem checkBStep_car_traveledAngle (dist : ℝ) (done : Bool) (car : Car) :
    (checkBStep dist done car).car.traveledAngle = car.traveledAngle := by
  unfold checkBStep; split_ifs <;> simp

@[simp] theorem checkBStep_car_targetExitNum (dist : ℝ) (done : Bool) (car : Car) :
    (checkBStep dist done car).car.targetExitNum = car.targetExitNum := by
  unfold checkBStep; split_ifs <;> simp

@[simp] theorem checkBStep_car_exitTravelTarget (dist : ℝ) (done : Bool) (car : Car) :
    (checkBStep dist done car).car.exitTravelTarget = car.exitTravelTarget := by
  unfold checkBStep; split_ifs <;> simp

@[simp] theorem checkDStep_car_failed (dist : ℝ) (done : Bool) (car : Car) :
    (checkDStep dist done car).car.failed = car.failed := by
  unfold checkDStep; split_ifs <;> simp

@[simp] theorem checkDStep_car_failReason (dist : ℝ) (done : Bool) (car : Car) :
    (checkDStep dist done car).car.failReason = car.failReason := by
  unfold checkDStep; split_ifs <;> simp

@[simp] theorem checkDStep_car_traveledAngle (dist : ℝ) (done : Bool) (car : Car) :
    (checkDStep dist done car).car.traveledAngle = car.traveledAngle := by
  unfold checkDStep; split_ifs <;> simp

@[simp] theorem checkDStep_car_targetExitNum (dist : ℝ) (done : Bool) (car : Car) :
    (checkDStep dist done car).car.targetExitNum = car.targetExitNum := by
  unfold checkDStep; split_ifs <;> simp

@[simp] theorem checkDStep_car_exitTravelTarget (dist : ℝ) (done : Bool) (car : Car) :
    (checkDStep dist done car).car.exitTravelTarget = car.exitTravelTarget := by
  unfold checkDStep; split_ifs <;> simp

@[simp] theorem checkCStep_car_failed (dist : ℝ) (done : Bool) (car : Car) :
    (checkCStep dist done car).car.failed = car.failed := by
  unfold checkCStep; split_ifs <;> simp

@[simp] theorem checkCStep_car_failReason (dist : ℝ) (done : Bool) (car : Car) :
    (checkCStep dist done car).car.failReason = car.failReason := by
  unfold checkCStep; split_ifs <;> simp

@[simp] theorem checkCStep_car_traveledAngle (dist : ℝ) (done : Bool) (car : Car) :
    (checkCStep dist done car).car.traveledAngle = car.traveledAngle := by
  unfold checkCStep; split_ifs <;> simp

@[simp] theorem ringLaneCheck_failed (dist : ℝ) (car : Car) :
    (ringLaneCheck dist car).failed = car.failed := by
  simp only [ringLaneCheck]; split_ifs <;> simp

@[simp] theorem ringLaneCheck_failReason (dist : ℝ) (car : Car) :
    (ringLaneCheck dist car).failReason = car.failReason := by
  simp only [ringLaneCheck]; split_ifs <;> simp

@[simp] theorem ringLaneCheck_traveledAngle (dist : ℝ) (car : Car) :
    (ringLaneCheck dist car).traveledAngle = car.traveledAngle := by
  simp only [ringLaneCheck]; split_ifs <;> simp

@[simp] theorem laneChangeCheck_failed (dist : ℝ) (p : Option ℝ) (car : Car) :
    (laneChangeCheck dist p car).failed = car.failed := by
  unfold laneChangeCheck
  cases p with
  | none => rfl
  | some q =>
      simp only []
      split_ifs <;> simp

@[simp] theorem laneChangeCheck_failReason (dist : ℝ) (p : Option ℝ) (car : Car) :
    (laneChangeCheck dist p car).failReason = car.failReason := by
  unfold laneChangeCheck
  cases p with
  | none => rfl
  | some q =>
      simp only []
      split_ifs <;> simp

@[simp] theorem laneChangeCheck_traveledAngle (dist : ℝ) (p : Option ℝ) (car : Car) :
    (laneChangeCheck dist p car).traveledAngle = car.traveledAngle := by
  unfold laneChangeCheck
  cases p with
  | none => rfl
  | some q =>
      simp only []
      split_ifs <;> simp

/-! ## One-shot checkpoint flag lemmas -/

theorem checkBStep_done_iff (dist : ℝ) (done : Bool) (car : Car) :
    (checkBStep dist done car).done = true ↔
      (done = true ∨ Real.pi - 0.1 ≤ car.traveledAngle) := by
  cases done with
  | true => simp [checkBStep]
  | false =>
      by_cases hr : Real.pi - 0.1 ≤ car.traveledAngle <;> simp [checkBStep, hr]

theorem checkDStep_done_iff (dist : ℝ) (done : Bool) (car : Car) :
    (checkDStep dist done car).done = true ↔
      (done = true ∨ (car.targetExitNum = 2 ∧ Real.pi / 2 ≤ car.traveledAngle)) := by
  cases done with
  | true => simp [checkDStep]
  | false =>
      by_cases hn : car.targetExitNum = 2 <;>
        by_cases hr : Real.pi / 2 ≤ car.traveledAngle <;>
          simp [checkDStep, hn, hr]

theorem checkCStep_done_iff (dist : ℝ) (done : Bool) (car : Car) :
    (checkCStep dist done car).done = true ↔
      (done = true ∨ car.exitTravelTarget - 0.7 ≤ car.traveledAngle) := by
  cases done with
  | true => simp [checkCStep]
  | false =>
      by_cases hr : car.exitTravelTarget - 0.7 ≤ car.traveledAngle <;>
        simp [checkCStep, hr]

theorem checkBStep_of_done (dist : ℝ) (car : Car) :
    checkBStep dist true car = ⟨car, true⟩ := by
  unfold checkBStep
  rw [if_neg (by simp)]

theorem checkDStep_of_done (dist : ℝ) (car : Car) :
    checkDStep dist true car = ⟨car, true⟩ := by
  unfold checkDStep
  rw [if_neg (by simp)]

theorem checkCStep_of_done (dist : ℝ) (car : Car) :
    checkCStep dist true car = ⟨car, true⟩ := by
  unfold checkCStep
  rw [if_neg (by simp)]

/-! ## ringStep projection lemmas -/

theorem ringStep_car_failed (e : Engine) (car : Car) :
    (ringStep e car).car.failed = car.failed := by
  simp only [ringStep]
  cases hp : e.prevRingAngle <;> split_ifs <;> simp

theorem ringStep_car_failReason (e : Engine) (car : Car) :
    (ringStep e car).car.failReason = car.failReason := by
  simp only [ringStep]
  cases hp : e.prevRingAngle <;> split_ifs <;> simp

theorem ringStep_car_traveledAngle_none (e : Engine) (car : Car)
    (hp : e.prevRingAngle = Option.none) :
    (ringStep e car).car.traveledAngle = car.traveledAngle := by
  simp only [ringStep, hp]
  split_ifs <;> simp

theorem ringStep_car_traveledAngle (e : Engine) (car : Car) (prev : ℝ)
    (hp : e.prevRingAngle = some prev) :
    (ringStep e car).car.traveledAngle =
      accumulate car.traveledAngle (norm2pi (atan2 (-car.z) car.x)) prev := by
  simp only [ringStep, hp]
  split_ifs <;> simp

theorem ringStep_checkBDone_iff (e : Engine) (car : Car) (prev : ℝ)
    (hp : e.prevRingAngle = some prev) :
    ((ringStep e car).checkBDone = true ↔
      (e.checkBDone = true ∨
        Real.pi - 0.1 ≤ accumulate car.traveledAngle (norm2pi (atan2 (-car.z) car.x)) prev)) := by
  simp only [ringStep, hp]
  rw [checkBStep_done_iff]

theorem ringStep_checkDDone_iff (e : Engine) (car : Car) (prev : ℝ)
    (hp : e.prevRingAngle = some prev) :
    ((ringStep e car).checkDDone = true ↔
      (e.checkDDone = true ∨
        (car.targetExitNum = 2 ∧
          Real.pi / 2 ≤ accumulate car.traveledAngle (norm2pi (atan2 (-car.z) car.x)) prev))) := by
  simp only [ringStep, hp]
  rw [checkDStep_done_iff]
  simp

theorem ringStep_checkCDone_iff (e : Engine) (car : Car) (prev : ℝ)
    (hp : e.prevRingAngle = some prev) :
    ((ringStep e car).checkCDone = true ↔
      (e.checkCDone = true ∨
        car.exitTravelTarget - 0.7 ≤
          accumulate car.traveledAngle (norm2pi (atan2 (-car.z) car.x)) prev)) := by
  simp only [ringStep, hp]
  rw [checkCStep_done_iff]
  simp

/-! ## approachingStep / exitingStep projection lemmas -/

theorem approachingStep_car_failed (dist : ℝ) (e : Engine) (car : Car) :
    (approachingStep dist e car).car.failed = car.failed := by
  simp only [approachingStep]
  split_ifs <;> simp

theorem approachingStep_car_failReason (dist : ℝ) (e : Engine) (car : Car) :
    (approachingStep dist e car).car.failReason = car.failReason := by
  simp only [approachingStep]
  split_ifs <;> simp

theorem exitingStep_car_failed (dist : ℝ) (e : Engine) (car : Car) :
    (exitingStep dist e car).car.failed = car.failed := by
  unfold exitingStep
  split_ifs <;> rfl

theorem exitingStep_car_failReason (dist : ℝ) (e : Engine) (car : Car) :
    (exitingStep dist e car).car.failReason = car.failReason := by
  unfold exitingStep
  split_ifs <;> rfl

/-! ## updateStateMachine entry lemmas -/

/-- A failed (or completed) player skips the whole rule-engine tick. -/
theorem updateStateMachine_of_failed {e : Engine} (dt : ℝ)
    (h : e.car.failed = true) : updateStateMachine dt e = e := by
  unfold updateStateMachine
  rw [if_pos (Or.inl h)]

/-- The physics integrator never touches the failed flag. -/
theorem physicsStep_failed (k : Keys) (dtScale : ℝ) (car : Car) :
    (physicsStep k dtScale car).failed = car.failed := rfl

theorem completionStep_of_nonpos {e : Engine} (dt : ℝ)
    (h : ¬ 0 < e.completeTimer) : completionStep dt e = e := by
  unfold completionStep
  rw [if_neg h]

@[simp] theorem restart_completeTimer (e : Engine) : (restart e).completeTimer = 0 := rfl

/-- The non-terminal entry of the rule-engine tick reduced to its branch
structure for a live player on a clear road inside a surviving grace path. -/
theorem updateStateMachine_ring (dt : ℝ) (e : Engine)
    (hfail : e.car.failed = false)
    (hphase : e.car.phase = Phase.on_roundabout)
    (hroad : onRoad e.car)
    (hcol : ¬ hasCollision e.car e.npcs)
    (hgrace : (graceStep dt (distOf e.car) e.car).failed = false) :
    updateStateMachine dt e = ringStep e (graceStep dt (distOf e.car) e.car) := by
  unfold updateStateMachine
  rw [if_neg (by simp [hfail, hphase])]
  rw [if_neg (not_not_intro hroad)]
  rw [if_neg hcol]
  rw [if_neg (by simp [hgrace])]
  rw [if_neg (by simp [graceStep_phase, hphase])]
  rw [if_pos (by simp [graceStep_phase, hphase])]

/-! ## Concrete example states used by witnesses -/

/-- A car with an active grace period. -/
def gracedCar : Car :=
  { initCar with graceActive := true, graceTimer := 1.5, graceRequired := some GraceReq.left }

/-! ## Claim theorems -/

/-- C3: at most one grace period is active at a time, and starting a grace
period while one is already active changes nothing: neither the remaining
timer nor the required-correction kind (nor any other field) - a new
violation never overrides an active grace period. -/
theorem c3_grace_idempotent (car : Car) (req : GraceReq) (duration : ℝ)
    (h : car.graceActive = true) :
    startGrace car req duration = car := by
  unfold startGrace
  rw [if_pos h]

theorem c3_witness :
    startGrace gracedCar GraceReq.ring_outer 3.0 = gracedCar ∧
    gracedCar.graceTimer = 1.5 ∧ gracedCar.graceRequired = some GraceReq.left :=
  ⟨c3_grace_idempotent gracedCar GraceReq.ring_outer 3.0 rfl, rfl, rfl⟩

/-- C10: after every physics tick, for any input flags, any tick scale and
any previous state, the player speed lies in [-MAX_REV, MAX_SPEED] =
[-0.18, 0.55], and any speed whose absolute value falls below 0.0005 has
been snapped to exactly 0 (the result is 0 or at least 0.0005 in absolute
value), so the HUD gear and speed ratio always derive from a bounded speed. -/
theorem c10_speed_clamped (k : Keys) (dtScale : ℝ) (car : Car) :
    -MAX_REV ≤ (physicsStep k dtScale car).speed ∧
    (physicsStep k dtScale car).speed ≤ MAX_SPEED ∧
    ((physicsStep k dtScale car).speed = 0 ∨
      0.0005 ≤ |(physicsStep k dtScale car).speed|) := by
  have key : ∀ v : ℝ,
      -MAX_REV ≤ (if |max (-MAX_REV) (min MAX_SPEED v)| < 0.0005 then 0
        else max (-MAX_REV) (min MAX_SPEED v)) ∧
      (if |max (-MAX_REV) (min MAX_SPEED v)| < 0.0005 then 0
        else max (-MAX_REV) (min MAX_SPEED v)) ≤ MAX_SPEED ∧
      ((if |max (-MAX_REV) (min MAX_SPEED v)| < 0.0005 then (0:ℝ)
        else max (-MAX_REV) (min MAX_SPEED v)) = 0 ∨
        0.0005 ≤ |if |max (-MAX_REV) (min MAX_SPEED v)| < 0.0005 then (0:ℝ)
          else max (-MAX_REV) (min MAX_SPEED v)|) := by
    intro v
    by_cases h : |max (-MAX_REV) (min MAX_SPEED v)| < 0.0005
    · rw [if_pos h]
      refine ⟨by norm_num [MAX_REV], by norm_num [MAX_SPEED], Or.inl rfl⟩
    · rw [if_neg h]
      refine ⟨le_max_left _ _, ?_, Or.inr (not_lt.mp h)⟩
      exact max_le (by norm_num [MAX_REV, MAX_SPEED]) (min_le_left _ _)
  exact key _

/-- C8: the restart command resets every player-state field to its initial
value (start position on the south outer approach lane, heading 0, speed 0,
steering 0, phase approaching, indicators off, traveledAngle 0, grace
inactive with timer 0 and no requirement, failed flag and reason cleared),
resets the per-attempt trackers, completion countdown and one-shot
checkpoint flags, and leaves the mission index - hence the active mission -
unchanged. -/
theorem c8_restart_frame (e : Engine) :
    (restart e).car.x = -(LANE_W * 1.5) ∧
    (restart e).car.z = RB_OUT + ROAD_L * 0.55 ∧
    (restart e).car.heading = 0 ∧
    (restart e).car.speed = 0 ∧
    (restart e).car.steer = 0 ∧
    (restart e).car.yawRate = 0 ∧
    (restart e).car.phase = Phase.approaching ∧
    (restart e).car.leftIndicator = false ∧
    (restart e).car.rightIndicator = false ∧
    (restart e).car.entryAngle = SOUTH_ENTRY_ANGLE ∧
    (restart e).car.traveledAngle = 0 ∧
    (restart e).car.approachLane = Lane.outer ∧
    (restart e).car.ringLane = Lane.outer ∧
    (restart e).car.graceActive = false ∧
    (restart e).car.graceTimer = 0 ∧
    (restart e).car.graceRequired = Option.none ∧
    (restart e).car.failed = false ∧
    (restart e).car.failReason = Option.none ∧
    (restart e).prevRingAngle = Option.none ∧
    (restart e).prevDistFromCenter = Option.none ∧
    (restart e).completeTimer = 0 ∧
    (restart e).checkADone = false ∧
    (restart e).checkBDone = false ∧
    (restart e).checkCDone = false ∧
    (restart e).checkDDone = false ∧
    (restart e).checkLaneApproachDone = false ∧
    (restart e).missionIndex = e.missionIndex ∧
    (restart e).car.targetExit = some (missionAt e.missionIndex).name ∧
    (restart e).car.targetExitNum = (missionAt e.missionIndex).num ∧
    (restart e).car.exitTravelTarget = (missionAt e.missionIndex).travelAngle :=
  ⟨rfl, rfl, rfl, rfl, rfl, rfl, rfl, rfl, rfl, rfl, rfl, rfl, rfl, rfl, rfl,
   rfl, rfl, rfl, rfl, rfl, rfl, rfl, rfl, rfl, rfl, rfl, rfl, rfl, rfl, rfl⟩

/-- C7: the active mission is always the exit-list entry at index
missionIndex mod 3 (3 = length of the fixed exit list); completing a
mission (the completion countdown expiring) increments the index by one
while keeping the table cyclic, so after 3 consecutive completions the
active mission is back at the same entry. -/
theorem c7_mission_cycling :
    (∀ e : Engine,
      (assignMission e).car.targetExit = some (missionAt e.missionIndex).name ∧
      (assignMission e).car.targetExitNum = (missionAt e.missionIndex).num) ∧
    EXITS.length = 3 ∧
    (∀ i : ℕ, missionAt (i + 3) = missionAt i) ∧
    (∀ dt : ℝ, ∀ e : Engine, 0 < e.completeTimer → e.completeTimer - dt ≤ 0 →
      (completionStep dt e).missionIndex = e.missionIndex + 1 ∧
      (completionStep dt e).car.targetExit = some (missionAt (e.missionIndex + 1)).name) := by
  refine ⟨fun e => ⟨rfl, rfl⟩, rfl, ?_, ?_⟩
  · intro i
    unfold missionAt
    rw [show EXITS.length = 3 from rfl, Nat.add_mod_right]
  · intro dt e h1 h2
    simp only [completionStep]
    rw [if_pos h1, if_pos h2]
    exact ⟨rfl, rfl⟩

theorem c7_witness :
    (completionStep 0.1 { initEngine with completeTimer := 0.05 }).missionIndex = 1 ∧
    (completionStep 0.1 { initEngine with completeTimer := 0.05 }).car.targetExit =
      some (missionAt 1).name :=
  c7_mission_cycling.2.2.2 0.1 { initEngine with completeTimer := 0.05 }
    (by norm_num) (by norm_num)

/-- C9: the elapsed time used by the physics integrator and by the
countdown timers in a single tick is the real elapsed time clamped to at
most 0.1 seconds: the tick wiring feeds exactly tickDt raw to the physics
step, the rule engine (hence the grace countdown) and the completion
countdown (and `_updateNPCs` receives the same clamped dt for the respawn
cooldowns), and no timer can lose more than 0.1 in one tick, whatever the
real inter-frame gap was. -/
theorem c9_tick_duration_cap :
    (∀ raw : ℝ, tickDt raw ≤ 0.1) ∧
    (∀ raw : ℝ, ∀ k : Keys, ∀ npcsAfter : List Npc, ∀ e : Engine,
      updateTick raw k npcsAfter e =
        completionStep (tickDt raw)
          (updateStateMachine (tickDt raw)
            { e with car := physicsStep k (tickDt raw * 60) e.car, npcs := npcsAfter })) ∧
    (∀ raw dist : ℝ, ∀ car : Car,
      car.graceTimer - 0.1 ≤ (graceStep (tickDt raw) dist car).graceTimer) ∧
    (∀ raw : ℝ, ∀ e : Engine,
      e.completeTimer - 0.1 ≤ (completionStep (tickDt raw) e).completeTimer) ∧
    (∀ raw t : ℝ, t - 0.1 ≤ t - tickDt raw) := by
  have hcap : ∀ raw : ℝ, tickDt raw ≤ 0.1 := fun raw => min_le_right raw 0.1
  refine ⟨hcap, fun raw k npcsAfter e => rfl, ?_, ?_, ?_⟩
  · intro raw dist car
    simp only [graceStep]
    split_ifs <;> simp <;> linarith [hcap raw]
  · intro raw e
    simp only [completionStep]
    split_ifs with h1 h2
    · rw [restart_completeTimer]
      linarith [hcap raw]
    · simp
      linarith [hcap raw]
    · linarith
  · intro raw t
    have := hcap raw
    linarith

/-- When the grace countdown itself sets the failed flag, the recorded
reason is one of the two uncorrected-violation messages. -/
theorem graceStep_fail_reason (dt dist : ℝ) (c : Car) (h0 : c.failed = false)
    (h1 : (graceStep dt dist c).failed = true) :
    (graceStep dt dist c).failReason = some FailReason.noSignal ∨
    (graceStep dt dist c).failReason = some FailReason.wrongLane := by
  simp only [graceStep] at h1 ⊢
  split_ifs at h1 ⊢ with ha hc ht hi
  · simp [h0] at h1
  · exact Or.inl rfl
  · exact Or.inr rfl
  · simp [h0] at h1
  · simp [h0] at h1

/-- C1: while phase = on_roundabout, traveledAngle is monotonically
non-decreasing on every tick whose (wrap-corrected) raw-angle delta is
clockwise (non-positive), whatever else the rule engine does that tick;
and a vehicle circling clockwise at constant angular speed w per tick
accumulates exactly n * w, hence exactly 2*pi after one full revolution -
the accumulator never wraps backward. -/
theorem c1_traveled_angle_monotone :
    (∀ dt : ℝ, ∀ e : Engine,
      e.car.phase = Phase.on_roundabout →
      (∀ prev, e.prevRingAngle = some prev →
        wrapDelta (norm2pi (atan2 (-e.car.z) e.car.x)) prev ≤ 0) →
      e.car.traveledAngle ≤ (updateStateMachine dt e).car.traveledAngle) ∧
    (∀ x0 w : ℝ, ∀ n : ℕ, 0 < w → w < Real.pi → (n : ℝ) * w = 2 * Real.pi →
      cwTraveled x0 w n = 2 * Real.pi) := by
  constructor
  · intro dt e hphase hcw
    simp only [updateStateMachine]
    by_cases h1 : e.car.failed = true ∨ e.car.phase = Phase.completed
    · rw [if_pos h1]
    · rw [if_neg h1]
      by_cases h2 : onRoad e.car
      · rw [if_neg (not_not_intro h2)]
        by_cases h3 : hasCollision e.car e.npcs
        · rw [if_pos h3]
        · rw [if_neg h3]
          by_cases hb : (graceStep dt (distOf e.car) e.car).failed = true
          case pos =>
              rw [if_pos hb]
              exact le_of_eq (graceStep_traveledAngle dt (distOf e.car) e.car).symm
          case neg =>
              rw [if_neg hb]
              have hgp : (graceStep dt (distOf e.car) e.car).phase = Phase.on_roundabout := by
                rw [graceStep_phase, hphase]
              rw [if_neg (by simp [graceStep_phase, hphase]), if_pos hgp]
              cases hp : e.prevRingAngle with
              | none =>
                  rw [ringStep_car_traveledAngle_none e _ hp, graceStep_traveledAngle]
              | some prev =>
                  rw [ringStep_car_traveledAngle e _ prev hp]
                  rw [graceStep_traveledAngle, graceStep_x, graceStep_z]
                  have hdelta := hcw prev hp
                  unfold accumulate
                  linarith
      · rw [if_pos h2]
  · intro x0 w n h0 h1 h3
    rw [cwTraveled_eq x0 w h0 h1 n, h3]

/-- A live car sitting on the outer ring lane due east of centre. -/
def ringCar : Car := { initCar with x := 19.5, z := 0, phase := Phase.on_roundabout }

/-- Engine state for the on-ring car whose stored previous ring angle is
its own current normalised angle. -/
def ringEngine : Engine :=
  { initEngine with
    car := ringCar
    prevRingAngle := some (norm2pi (atan2 (-ringCar.z) ringCar.x)) }

theorem c1_witness :
    ringEngine.car.traveledAngle ≤ (updateStateMachine 0.016 ringEngine).car.traveledAngle ∧
    cwTraveled 0 (Real.pi / 2) 4 = 2 * Real.pi := by
  constructor
  · refine c1_traveled_angle_monotone.1 0.016 ringEngine rfl ?_
    intro prev hp
    have h2 : some (norm2pi (atan2 (-ringCar.z) ringCar.x)) = some prev := hp
    rw [← Option.some.inj h2]
    exact (wrapDelta_self _).le
  · refine c1_traveled_angle_monotone.2 0 (Real.pi / 2) 4 (by positivity) ?_ ?_
    · linarith [Real.pi_pos]
    · push_cast
      ring

/-- C4: on any rule-engine tick in a non-terminal state, a position off the
drivable surface immediately sets failed with an off-road reason, whatever
the phase; and for a position on the drivable surface the tick never
produces an off-road failure (any failure it does produce carries the
collision reason or an uncorrected-violation reason). -/
theorem c4_offroad_failure (dt : ℝ) (e : Engine)
    (hfail : e.car.failed = false) (hphase : e.car.phase ≠ Phase.completed) :
    (¬ onRoad e.car →
      (updateStateMachine dt e).car.failed = true ∧
      ∃ r, (updateStateMachine dt e).car.failReason = some r ∧ r.isOffRoad) ∧
    (onRoad e.car →
      (updateStateMachine dt e).car.failed = true →
      (updateStateMachine dt e).car.failReason = some FailReason.collision ∨
      (updateStateMachine dt e).car.failReason = some FailReason.noSignal ∨
      (updateStateMachine dt e).car.failReason = some FailReason.wrongLane) := by
  have htop : ¬ (e.car.failed = true ∨ e.car.phase = Phase.completed) := by
    simp [hfail, hphase]
  constructor
  · intro hroad
    have hred : updateStateMachine dt e =
        { e with car := { e.car with
            failed := true
            failReason := some (if distOf e.car < RB_IN then FailReason.island
              else FailReason.grass) } } := by
      simp only [updateStateMachine]
      rw [if_neg htop, if_pos hroad]
    rw [hred]
    refine ⟨rfl, ?_⟩
    by_cases hd : distOf e.car < RB_IN
    · refine ⟨FailReason.island, ?_, Or.inl rfl⟩
      show some (if distOf e.car < RB_IN then FailReason.island else FailReason.grass) =
        some FailReason.island
      rw [if_pos hd]
    · refine ⟨FailReason.grass, ?_, Or.inr rfl⟩
      show some (if distOf e.car < RB_IN then FailReason.island else FailReason.grass) =
        some FailReason.grass
      rw [if_neg hd]
  · intro hroad hfailed
    simp only [updateStateMachine] at hfailed ⊢
    rw [if_neg htop, if_neg (not_not_intro hroad)] at hfailed ⊢
    by_cases h3 : hasCollision e.car e.npcs
    · rw [if_pos h3] at hfailed ⊢
      exact Or.inl rfl
    · rw [if_neg h3] at hfailed ⊢
      by_cases hb : (graceStep dt (distOf e.car) e.car).failed = true
      case pos =>
          rw [if_pos hb] at hfailed ⊢
          rcases graceStep_fail_reason dt (distOf e.car) e.car hfail hb with h | h
          · exact Or.inr (Or.inl h)
          · exact Or.inr (Or.inr h)
      case neg =>
          have hbf : (graceStep dt (distOf e.car) e.car).failed = false := by
            simpa using hb
          rw [if_neg hb] at hfailed ⊢
          exfalso
          cases hph : e.car.phase with
          | approaching =>
              rw [if_pos (show (graceStep dt (distOf e.car) e.car).phase = Phase.approaching
                by rw [graceStep_phase, hph])] at hfailed
              rw [approachingStep_car_failed] at hfailed
              rw [hbf] at hfailed
              simp at hfailed
          | on_roundabout =>
              rw [if_neg (by simp [graceStep_phase, hph]),
                if_pos (show (graceStep dt (distOf e.car) e.car).phase = Phase.on_roundabout
                  by rw [graceStep_phase, hph])] at hfailed
              rw [ringStep_car_failed] at hfailed
              rw [hbf] at hfailed
              simp at hfailed
          | exiting =>
              rw [if_neg (by simp [graceStep_phase, hph]),
                if_neg (by simp [graceStep_phase, hph]),
                if_pos (show (graceStep dt (distOf e.car) e.car).phase = Phase.exiting
                  by rw [graceStep_phase, hph])] at hfailed
              rw [exitingStep_car_failed] at hfailed
              rw [hbf] at hfailed
              simp at hfailed
          | completed =>
              exact hphase hph

/-- A car parked dead centre on the island: off the drivable surface. -/
def islandCar : Car := { initCar with x := 0, z := 0 }

def islandEngine : Engine := { initEngine with car := islandCar }

theorem c4_witness :
    (updateStateMachine 0.1 islandEngine).car.failed = true ∧
    ∃ r, (updateStateMachine 0.1 islandEngine).car.failReason = some r ∧ r.isOffRoad := by
  have hph : islandEngine.car.phase ≠ Phase.completed := by
    rw [show islandEngine.car.phase = Phase.approaching from rfl]
    simp
  apply (c4_offroad_failure 0.1 islandEngine rfl hph).1
  unfold onRoad distOf
  norm_num [islandEngine, islandCar, initCar, RB_IN, RB_OUT, ROAD_W, ROAD_L,
    ARM_OVERLAP, Real.sqrt_zero]

/-- C6: checkpoint one-shot semantics.  On a clean on-ring tick the
post-tick one-shot flags are exactly (already fired) OR (this tick's
accumulated traveled angle has reached or passed the threshold) - so a
traveled angle exactly equal to the threshold fires the checkpoint, a large
step past it cannot skip it, and a set flag latches; and a checkpoint whose
flag is already set leaves the car untouched, so it can fire at most once
per attempt (the flags are only cleared by `_assignMission`). -/
theorem c6_checkpoint_one_shot (dt : ℝ) (e : Engine) (prev : ℝ)
    (hfail : e.car.failed = false)
    (hphase : e.car.phase = Phase.on_roundabout)
    (hroad : onRoad e.car)
    (hcol : ¬ hasCollision e.car e.npcs)
    (hgrace : (graceStep dt (distOf e.car) e.car).failed = false)
    (hp : e.prevRingAngle = some prev) :
    ((updateStateMachine dt e).checkBDone = true ↔
      (e.checkBDone = true ∨
        Real.pi - 0.1 ≤ accumulate e.car.traveledAngle
          (norm2pi (atan2 (-e.car.z) e.car.x)) prev)) ∧
    ((updateStateMachine dt e).checkDDone = true ↔
      (e.checkDDone = true ∨
        (e.car.targetExitNum = 2 ∧
          Real.pi / 2 ≤ accumulate e.car.traveledAngle
            (norm2pi (atan2 (-e.car.z) e.car.x)) prev))) ∧
    ((updateStateMachine dt e).checkCDone = true ↔
      (e.checkCDone = true ∨
        e.car.exitTravelTarget - 0.7 ≤ accumulate e.car.traveledAngle
          (norm2pi (atan2 (-e.car.z) e.car.x)) prev)) ∧
    (∀ d2 : ℝ, ∀ c : Car, checkBStep d2 true c = ⟨c, true⟩) ∧
    (∀ d2 : ℝ, ∀ c : Car, checkDStep d2 true c = ⟨c, true⟩) ∧
    (∀ d2 : ℝ, ∀ c : Car, checkCStep d2 true c = ⟨c, true⟩) := by
  rw [updateStateMachine_ring dt e hfail hphase hroad hcol hgrace]
  refine ⟨?_, ?_, ?_, checkBStep_of_done, checkDStep_of_done, checkCStep_of_done⟩
  · rw [ringStep_checkBDone_iff e _ prev hp]
    rw [graceStep_traveledAngle, graceStep_x, graceStep_z]
  · rw [ringStep_checkDDone_iff e _ prev hp]
    rw [graceStep_traveledAngle, graceStep_x, graceStep_z, graceStep_targetExitNum]
  · rw [ringStep_checkCDone_iff e _ prev hp]
    rw [graceStep_traveledAngle, graceStep_x, graceStep_z, graceStep_exitTravelTarget]

/-- On-ring car due east of centre, target travel a quarter turn. -/
def ringCarHalf : Car :=
  { initCar with
    x := 19.5
    z := 0
    phase := Phase.on_roundabout
    exitTravelTarget := Real.pi / 2 }

def ringEngineHalf : Engine :=
  { initEngine with car := ringCarHalf, prevRingAngle := some 0 }

theorem c6_witness :
    ((updateStateMachine 0.1 ringEngineHalf).checkCDone = true ↔
      (ringEngineHalf.checkCDone = true ∨
        ringEngineHalf.car.exitTravelTarget - 0.7 ≤
          accumulate ringEngineHalf.car.traveledAngle
            (norm2pi (atan2 (-ringEngineHalf.car.z) ringEngineHalf.car.x)) 0)) ∧
    checkCStep 1 true initCar = ⟨initCar, true⟩ := by
  have hdist : distOf ringEngineHalf.car = 19.5 := by
    unfold distOf
    rw [show ringEngineHalf.car.x * ringEngineHalf.car.x +
        ringEngineHalf.car.z * ringEngineHalf.car.z = (19.5:ℝ) ^ 2 by
      norm_num [ringEngineHalf, ringCarHalf, initCar]]
    exact Real.sqrt_sq (by norm_num)
  have hroad : onRoad ringEngineHalf.car := by
    unfold onRoad
    refine Or.inl ⟨?_, ?_⟩
    · rw [hdist]; norm_num [RB_IN]
    · rw [hdist]; norm_num [RB_OUT]
  have hcol : ¬ hasCollision ringEngineHalf.car ringEngineHalf.npcs := by
    rw [show ringEngineHalf.npcs = [] from rfl]
    simp [hasCollision]
  have hgrace : (graceStep 0.1 (distOf ringEngineHalf.car) ringEngineHalf.car).failed = false := by
    rw [graceStep_of_inactive 0.1 (distOf ringEngineHalf.car) rfl]
    rfl
  have h := c6_checkpoint_one_shot 0.1 ringEngineHalf 0 (by rfl) (by rfl) hroad hcol
    hgrace (by rfl)
  exact ⟨h.2.2.1, h.2.2.2.2.2 1 initCar⟩

/-- C2 (amended): once the player's failed flag is set, the rule engine
performs no further checks or mutations at all (the state-machine tick is
the identity until an explicit restart), and the traffic follow/yield
model no longer reacts to the player in any way (its result is independent
of the failed player's pose and phase) while agents keep updating; the
physics integrator, however, keeps integrating the player from the inputs. -/
theorem c2_failed_player_behaviour :
    (∀ dt : ℝ, ∀ e : Engine, e.car.failed = true → updateStateMachine dt e = e) ∧
    (∀ car1 car2 : Car, ∀ others : List Npc, ∀ npc : Npc,
      car1.failed = true → car2.failed = true →
      npcFollowSpeed car1 others npc = npcFollowSpeed car2 others npc) := by
  constructor
  · exact fun dt e h => updateStateMachine_of_failed dt h
  · intro car1 car2 others npc h1 h2
    unfold npcFollowSpeed npcYieldCond
    simp [h1, h2]

/-- The failed player from which the counterexample tick starts. -/
def failedCar : Car := { initCar with failed := true }

def failedEngine : Engine := { initEngine with car := failedCar }

/-- Throttle held. -/
def keysUp : Keys := { left := false, right := false, up := true, down := false }

theorem c2_witness :
    updateStateMachine 0.1 failedEngine = failedEngine ∧
    npcFollowSpeed failedCar []
        { state := NpcState.approaching, x := 0, z := 27, heading := 0,
          ringAngle := 0, ringRadius := NPC_OUTER_R, entryArm := ArmName.south } =
      npcFollowSpeed { failedCar with x := 5 } []
        { state := NpcState.approaching, x := 0, z := 27, heading := 0,
          ringAngle := 0, ringRadius := NPC_OUTER_R, entryArm := ArmName.south } :=
  ⟨c2_failed_player_behaviour.1 0.1 failedEngine rfl,
   c2_failed_player_behaviour.2 failedCar { failedCar with x := 5 } _ _ rfl rfl⟩

/-- C2 counterexample: the claim as frozen also asserts that the physics
integrator stops updating a failed player, but `_update` integrates the
player before any failed check: one throttle tick from the failed start
state changes the player's speed. -/
theorem c2_counterexample :
    failedEngine.car.failed = true ∧
    (updateTick 0.1 keysUp [] failedEngine).car.speed ≠ failedEngine.car.speed := by
  refine ⟨rfl, ?_⟩
  have h1 : updateTick 0.1 keysUp [] failedEngine =
      completionStep (tickDt 0.1) (updateStateMachine (tickDt 0.1)
        { failedEngine with
          car := physicsStep keysUp (tickDt 0.1 * 60) failedEngine.car
          npcs := [] }) := rfl
  have hsm : updateStateMachine (tickDt 0.1)
      { failedEngine with
        car := physicsStep keysUp (tickDt 0.1 * 60) failedEngine.car
        npcs := [] } =
      { failedEngine with
        car := physicsStep keysUp (tickDt 0.1 * 60) failedEngine.car
        npcs := [] } :=
    updateStateMachine_of_failed _ rfl
  have hcs : completionStep (tickDt 0.1)
      { failedEngine with
        car := physicsStep keysUp (tickDt 0.1 * 60) failedEngine.car
        npcs := [] } =
      { failedEngine with
        car := physicsStep keysUp (tickDt 0.1 * 60) failedEngine.car
        npcs := [] } :=
    completionStep_of_nonpos _ (by norm_num : ¬ (0:ℝ) < 0)
  rw [h1, hsm, hcs]
  have hdt : tickDt 0.1 * 60 = (6:ℝ) := by
    unfold tickDt
    rw [min_self]
    norm_num
  rw [show ({ failedEngine with
      car := physicsStep keysUp (tickDt 0.1 * 60) failedEngine.car
      npcs := [] } : Engine).car = physicsStep keysUp (tickDt 0.1 * 60) failedEngine.car
    from rfl]
  rw [hdt]
  have hv : (physicsStep keysUp 6 failedEngine.car).speed = 0.054 := by
    simp only [physicsStep, keysUp, failedEngine, failedCar, initCar]
    norm_num
    rw [show ACCEL * 6 = (0.054:ℝ) by norm_num [ACCEL]]
    rw [min_eq_right (show (0.054:ℝ) ≤ MAX_SPEED by norm_num [MAX_SPEED])]
    rw [max_eq_right (show -MAX_REV ≤ (0.054:ℝ) by norm_num [MAX_REV])]
    rw [if_neg (show ¬ |(0.054:ℝ)| < 1 / 2000 by
      rw [abs_of_pos (by norm_num : (0:ℝ) < 0.054)]; norm_num)]
    norm_num
  rw [hv]
  rw [show failedEngine.car.speed = (0:ℝ) from rfl]
  norm_num

/-- An approaching NPC on the south arm just inside the entry zone,
assigned the outer ring lane. -/
def npcApproachS : Npc :=
  { state := NpcState.approaching, x := 0, z := 27, heading := 0,
    ringAngle := 0, ringRadius := NPC_OUTER_R, entryArm := ArmName.south }

/-- A live on-ring player sitting exactly at the NPC's ring-entry point
(angular gap 0). -/
def carAtEntry : Car :=
  { initCar with
    x := (entryIntOf npcApproachS).x
    z := (entryIntOf npcApproachS).z
    phase := Phase.on_roundabout }

/-- C5: an approaching agent inside the entry zone (distance from centre
below RB_OUT + 14) computes follow speed exactly 0 when the non-failed
on-ring player, or any other on-ring agent, sits within the 0.9 rad
angular gap clockwise-before its entry angle. -/
theorem c5_entry_yield (car : Car) (others : List Npc) (npc : Npc)
    (hstate : npc.state = NpcState.approaching)
    (hdist : Real.sqrt (npc.x * npc.x + npc.z * npc.z) < RB_OUT + 14)
    (hocc : (car.failed = false ∧ car.phase = Phase.on_roundabout ∧
              yieldGapPlayer npc car < 0.9) ∨
            (∃ other ∈ others, other.state = NpcState.on_roundabout ∧
              yieldGapNpc npc other < 0.9)) :
    npcFollowSpeed car others npc = 0 := by
  have hyield : npcYieldCond car others npc := by
    refine ⟨hstate, hdist, ?_⟩
    rcases hocc with h | ⟨other, hmem, hst, hgap⟩
    · exact Or.inl h
    · refine Or.inr ⟨other, hmem, ?_, ?_, ?_⟩
      · rw [hst]; simp
      · rw [hst]; simp
      · rw [if_pos hst]
        exact hgap
  unfold npcFollowSpeed
  rw [if_pos hyield]

theorem c5_witness : npcFollowSpeed carAtEntry [] npcApproachS = 0 := by
  apply c5_entry_yield carAtEntry [] npcApproachS rfl
  · rw [show npcApproachS.x * npcApproachS.x + npcApproachS.z * npcApproachS.z = (27:ℝ) ^ 2 by
      norm_num [npcApproachS]]
    rw [Real.sqrt_sq (by norm_num : (0:ℝ) ≤ 27)]
    norm_num [RB_OUT]
  · refine Or.inl ⟨rfl, rfl, ?_⟩
    unfold yieldGapPlayer
    rw [show carAtEntry.x = (entryIntOf npcApproachS).x from rfl,
      show carAtEntry.z = (entryIntOf npcApproachS).z from rfl]
    rw [show norm2pi (atan2 (entryIntOf npcApproachS).x (-(entryIntOf npcApproachS).z)) =
      (entryIntOf npcApproachS).ringAngle from rfl]
    rw [sub_self, zero_add, jsMod_self two_pi_pos.ne']
    norm_num
